import Mathlib

/-!
Verification development for the Alexa media player entity
(`custom_components/alexa_media/media_player.py`, class `AlexaClient`).

The Python class is shallowly embedded: the mutable entity is a record
`AlexaClientState`, inbound push notifications are a tagged union
`EventData` mirroring the five recognized event shapes, and observable
side effects (remote-session calls, sleeps, scheduled updates, timers)
are recorded in an `Effect` trace.  Optional/None-able Python fields are
`Option`s, and Python truthiness of those fields is made explicit.
-/

/-- The Home Assistant states used by the entity
(`STATE_PLAYING`, `STATE_PAUSED`, `STATE_IDLE`, `STATE_STANDBY`,
`STATE_UNAVAILABLE`). -/
inductive HAState where
  | playing
  | paused
  | idle
  | standby
  | unavailable
  deriving Repr, BEq, DecidableEq

/-- Observable side effects of the entity methods: remote-session calls
(`alexa_api.set_volume`, `alexa_api.play`), delegation to a playing
parent's dispatcher (`self._playing_parent.async_media_play()`),
a full refresh (`await self.async_update()`), an asyncio sleep,
`async_schedule_update_ha_state(force_refresh=...)`, and a timer
registered through `async_call_later(hass, delay, ...)`. -/
inductive Effect where
  | setVolume (v : ℚ)
  | apiPlay
  | parentPlay (serial : String)
  | refresh
  | sleep (seconds : Nat)
  | scheduleHaState (forceRefresh : Bool)
  | callLater (delay : Nat)
  deriving Repr, BEq, DecidableEq

/-- One entry of `bluetooth_state["pairedDeviceList"]`. -/
structure BluetoothDevice where
  friendlyName : String
  address : String
  connected : Bool
  profiles : List String
  deriving Repr, DecidableEq

/-- The `bluetooth_change` event payload / `_bluetooth_state` value:
a device serial plus an optional paired-device list (`none` models an
absent or `None` `pairedDeviceList` entry). -/
structure BluetoothPayload where
  deviceSerialNumber : String
  pairedDeviceList : Option (List BluetoothDevice)
  deriving Repr, DecidableEq

/-- The `last_called_change` event payload: `serialNumber` and
`timestamp`. -/
structure LastCalledPayload where
  serialNumber : String
  timestamp : Nat
  deriving Repr, DecidableEq

/-- The `player_state` event payload.  `deviceSerialNumber` is
`dopplerId.deviceSerialNumber`; the four optional fields model the
presence or absence of the corresponding keys in the payload dict. -/
structure PlayerStatePayload where
  deviceSerialNumber : String
  audioPlayerState : Option String
  mediaReferenceId : Option String
  volumeSetting : Option Int
  dopplerConnectionState : Option String
  deriving Repr, DecidableEq

/-- The `queue_state` event payload. -/
structure QueueStatePayload where
  deviceSerialNumber : String
  trackOrderChanged : Option Bool
  loopMode : Option String
  playBackOrder : Option String
  deriving Repr, DecidableEq

/-- An inbound push notification: exactly one of the five mutually
exclusive event shapes recognized by `_handle_event`.  A `none` payload
models an event key mapped to a falsy value, from which no serial can be
extracted. -/
inductive EventData where
  | lastCalledChange (payload : Option LastCalledPayload)
  | bluetoothChange (payload : Option BluetoothPayload)
  | playerState (payload : Option PlayerStatePayload)
  | queueState (payload : Option QueueStatePayload)
  | pushActivity (serialNumber : Option String)
  deriving Repr, DecidableEq

/-- The mutable per-device state of `AlexaClient` (the fields the
verified methods read or write).  Fields initialized to `None` in
`__init__` and possibly never set are `Option`s. -/
structure AlexaClientState where
  deviceSerialNumber : String
  deviceName : String
  appDeviceList : List String
  available : Option Bool
  capabilities : List String
  parentClusters : List String
  clusterMembers : List String
  mediaPlayerState : Option String
  mediaVolLevel : Option ℚ
  previousVolume : Option ℚ
  mediaIsMuted : Option Bool
  shuffle : Option Bool
  repeatState : Option Bool
  source : Option String
  sourceList : List String
  bluetoothState : Option BluetoothPayload
  lastCalled : Option Bool
  lastCalledTimestamp : Option Nat
  playingParent : Option String
  shouldPoll : Bool
  lastUpdate : Nat
  deriving Repr, DecidableEq

/-- Per-account shared registry data read by the handlers:
the `websocket` flag and, when the `websocket_commands` key is present,
the list of observed command names (its keys). -/
structure AccountData where
  websocket : Bool
  websocketCommands : Option (List String)
  deriving Repr, DecidableEq

/-- Python truthiness of an `Option Bool` field (`None` is falsy). -/
def truthyB : Option Bool → Bool
  | some b => b
  | none => false

/-- The `state` property: `STATE_UNAVAILABLE` when `self.available` is
falsy, otherwise decoded from `self._media_player_state` with
`STATE_STANDBY` as the fallback. -/
def AlexaClientState.state (d : AlexaClientState) : HAState :=
  if !truthyB d.available then HAState.unavailable
  else if d.mediaPlayerState == some "PLAYING" then HAState.playing
  else if d.mediaPlayerState == some "PAUSED" then HAState.paused
  else if d.mediaPlayerState == some "IDLE" then HAState.idle
  else HAState.standby

/-- Whether any of the three push-audio command kinds appears in the
observed websocket command names. -/
def audioPushSeen (seen : List String) : Bool :=
  seen.contains "PUSH_AUDIO_PLAYER_STATE"
    || seen.contains "PUSH_MEDIA_CHANGE"
    || seen.contains "PUSH_MEDIA_PROGRESS_CHANGE"

/-- `_refresh_if_no_audiopush`: force a full refresh when no refresh has
happened yet, the account has a non-empty `websocket_commands` record,
and none of the three push-audio kinds has ever been observed. -/
def refresh_if_no_audiopush (alreadyRefreshed : Bool) (acct : AccountData) :
    List Effect :=
  match acct.websocketCommands with
  | some seen =>
      if !alreadyRefreshed && !seen.isEmpty && !audioPushSeen seen then
        [Effect.refresh]
      else []
  | none => []

/-- Serial extraction at the top of `_handle_event`: one extraction rule
per event shape; a falsy payload yields no serial. -/
def extract_serial : EventData → Option String
  | EventData.lastCalledChange p => p.map (fun q => q.serialNumber)
  | EventData.bluetoothChange p => p.map (fun q => q.deviceSerialNumber)
  | EventData.playerState p => p.map (fun q => q.deviceSerialNumber)
  | EventData.queueState p => p.map (fun q => q.deviceSerialNumber)
  | EventData.pushActivity s => s

/-- `_get_source_list`: `"Local Speaker"` plus the friendly names of
paired bluetooth devices whose (truthy) profile list contains
`"A2DP-SOURCE"`. -/
def get_source_list (bt : Option BluetoothPayload) : List String :=
  "Local Speaker" ::
    (match bt with
     | some b =>
         match b.pairedDeviceList with
         | some l =>
             (l.filter
               (fun dev =>
                 !dev.profiles.isEmpty && dev.profiles.contains "A2DP-SOURCE")).map
               (fun dev => dev.friendlyName)
         | none => []
     | none => [])

/-- `_get_source`: the first paired bluetooth device that is connected
and whose friendly name is in the current source list; otherwise
`"Local Speaker"`. -/
def get_source (bt : Option BluetoothPayload) (sourceList : List String) :
    String :=
  match bt with
  | some b =>
      match b.pairedDeviceList with
      | some l =>
          match l.find?
              (fun dev => dev.connected && sourceList.contains dev.friendlyName) with
          | some dev => dev.friendlyName
          | none => "Local Speaker"
      | none => "Local Speaker"
  | none => "Local Speaker"

/-- The `last_called_change` branch of `_handle_event`: a serial match
against this device or an affiliated app device marks the device as last
called and stores the event timestamp; any other serial sets the
last-called flag to `False`.  Either way a state update is scheduled,
with `force_refresh` exactly when the account websocket is down. -/
def handle_last_called (d : AlexaClientState) (p : LastCalledPayload)
    (acct : AccountData) (s : String) : AlexaClientState × List Effect :=
  let d2 :=
    if s == d.deviceSerialNumber || d.appDeviceList.contains s then
      { d with lastCalled := some true, lastCalledTimestamp := some p.timestamp }
    else
      { d with lastCalled := some false }
  (d2, [Effect.scheduleHaState (!acct.websocket)])

/-- The `bluetooth_change` branch of `_handle_event` (serial already
matched): store the event payload as the bluetooth state, recompute the
source against the old source list, then recompute the source list, and
schedule a state update. -/
def handle_bluetooth (d : AlexaClientState) (p : BluetoothPayload) :
    AlexaClientState × List Effect :=
  let d2 := { d with bluetoothState := some p }
  let d3 := { d2 with source := some (get_source d2.bluetoothState d2.sourceList) }
  let d4 := { d3 with sourceList := get_source_list d3.bluetoothState }
  (d4, [Effect.scheduleHaState false])

/-- The `player_state` branch of `_handle_event` (serial already
matched): an `audioPlayerState` key sleeps 2 seconds then refreshes; a
`mediaReferenceId` key refreshes immediately; a `volumeSetting` key
updates the volume in place to `value / 100`; a
`dopplerConnectionState` key updates availability in place.  The
no-audiopush fallback runs afterwards in every case, with
`already_refreshed` set by the first two branches. -/
def handle_player_state (d : AlexaClientState) (p : PlayerStatePayload)
    (acct : AccountData) : AlexaClientState × List Effect :=
  if p.audioPlayerState.isSome then
    (d, [Effect.sleep 2, Effect.refresh] ++ refresh_if_no_audiopush true acct)
  else if p.mediaReferenceId.isSome then
    (d, [Effect.refresh] ++ refresh_if_no_audiopush true acct)
  else
    match p.volumeSetting with
    | some v =>
        ({ d with mediaVolLevel := some ((v : ℚ) / 100) },
          [Effect.scheduleHaState false] ++ refresh_if_no_audiopush false acct)
    | none =>
        match p.dopplerConnectionState with
        | some c =>
            ({ d with available := some (c == "ONLINE") },
              [Effect.scheduleHaState false] ++ refresh_if_no_audiopush false acct)
        | none => (d, refresh_if_no_audiopush false acct)

/-- The `queue_state` branch of `_handle_event` (serial already
matched): a present-and-falsy `trackOrderChanged` together with a
`loopMode` key updates the repeat tri-state from the loop-mode
vocabulary; otherwise a `playBackOrder` key updates the shuffle
tri-state.  The no-audiopush fallback runs afterwards in every case. -/
def handle_queue_state (d : AlexaClientState) (p : QueueStatePayload)
    (acct : AccountData) : AlexaClientState × List Effect :=
  match p.trackOrderChanged, p.loopMode with
  | some false, some lm =>
      ({ d with repeatState := some (lm == "LOOP_QUEUE") },
        refresh_if_no_audiopush false acct)
  | _, _ =>
      match p.playBackOrder with
      | some pb =>
          ({ d with shuffle := some (pb == "SHUFFLE_ALL") },
            refresh_if_no_audiopush false acct)
      | none => (d, refresh_if_no_audiopush false acct)

/-- The `push_activity` branch of `_handle_event`: acts (without any
serial-match check) only when the current visible state is IDLE, PAUSED
or PLAYING, in which case it sleeps 2 seconds and refreshes. -/
def handle_push_activity (d : AlexaClientState) : AlexaClientState × List Effect :=
  if d.state = HAState.idle ∨ d.state = HAState.paused
      ∨ d.state = HAState.playing then
    (d, [Effect.sleep 2, Effect.refresh])
  else (d, [])

/-- The unconditional `self.available = True` performed by
`_handle_event` right after a non-empty serial was extracted and before
any serial-match dispatch. -/
def event_availability_update (d : AlexaClientState) : AlexaClientState :=
  { d with available := some true }

/-- The serial-matching dispatch of `_handle_event`: the `player_state`
and `queue_state` branches run only on a serial match with this device;
`last_called_change` runs its own match inside; `push_activity` never
matches serials. -/
def handle_event_dispatch (d : AlexaClientState) (ev : EventData)
    (acct : AccountData) (s : String) : AlexaClientState × List Effect :=
  match ev with
  | EventData.lastCalledChange (some p) => handle_last_called d p acct s
  | EventData.bluetoothChange (some p) =>
      if s == d.deviceSerialNumber then handle_bluetooth d p else (d, [])
  | EventData.playerState (some p) =>
      if s == d.deviceSerialNumber then handle_player_state d p acct else (d, [])
  | EventData.queueState (some p) =>
      if s == d.deviceSerialNumber then handle_queue_state d p acct else (d, [])
  | EventData.pushActivity _ => handle_push_activity d
  | _ => (d, [])

/-- `_handle_event`: extract a serial; bail out if it is missing or
empty; otherwise set availability to true, schedule a state update, and
dispatch on the event shape. -/
def handle_event (d : AlexaClientState) (ev : EventData) (acct : AccountData) :
    AlexaClientState × List Effect :=
  match extract_serial ev with
  | none => (d, [])
  | some s =>
      if s == "" then (d, [])
      else
        let r := handle_event_dispatch (event_availability_update d) ev acct s
        (r.1, Effect.scheduleHaState false :: r.2)

/-- The `transport` sub-dict of a session payload: the optional
`shuffle` and `repeat` string fields. -/
structure TransportInfo where
  shuffle : Option String
  repeatValue : Option String
  deriving Repr, DecidableEq

/-- The shuffle/repeat tri-state mapping used by `refresh` on a session
transport field: a present value other than `"DISABLED"` maps to
whether it equals `"SELECTED"`; a missing key or the value
`"DISABLED"` maps to `None`. -/
def transport_tristate (value : Option String) : Option Bool :=
  match value with
  | some v => if v ≠ "DISABLED" then some (v == "SELECTED") else none
  | none => none

/-- The transport part of session reconciliation in `refresh`: when the
session exposes a (truthy) `transport` dict, both tri-states are
recomputed from it; otherwise they are left unchanged. -/
def reconcile_transport (d : AlexaClientState) (t : Option TransportInfo) :
    AlexaClientState :=
  match t with
  | some tr =>
      { d with shuffle := transport_tristate tr.shuffle,
               repeatState := transport_tristate tr.repeatValue }
  | none => d

/-- The view of a registered media_player entity as read during
`refresh`: its `state` property and whether its `session` property is a
truthy (non-empty) payload. -/
structure EntityView where
  entityState : HAState
  sessionTruthy : Bool
  deriving Repr, DecidableEq

/-- The predicate of the `playing_parents` filter in `refresh`: the id
resolves through the shared account registry to an entity whose state is
PLAYING. -/
def isPlayingEntity (reg : String → Option EntityView) (x : String) : Bool :=
  match reg x with
  | some e => e.entityState == HAState.playing
  | none => false

/-- `playing_parents`: the parent-cluster ids whose registered entity is
currently PLAYING, in parent-list order. -/
def playing_parents (reg : String → Option EntityView)
    (parents : List String) : List String :=
  parents.filter (fun x => isPlayingEntity reg x)

/-- Whether the registered entity for an id has a truthy session. -/
def sessionTruthyOf (reg : String → Option EntityView) (x : String) : Bool :=
  match reg x with
  | some e => e.sessionTruthy
  | none => false

/-- The `_playing_parent` resolution performed by `refresh` when the
device is available and has the MUSIC_SKILL capability: the first
playing parent is taken (a warning is logged when there are several);
`_playing_parent` is set to it when its session is truthy, and reset to
`None` otherwise (in which case the session is fetched from this
device's own remote API).  Without availability or the capability the
field is left unchanged. -/
def refresh_playing_parent (reg : String → Option EntityView)
    (d : AlexaClientState) : Option String :=
  if truthyB d.available = true ∧ "MUSIC_SKILL" ∈ d.capabilities then
    match (playing_parents reg d.parentClusters).head? with
    | some p => if sessionTruthyOf reg p then some p else none
    | none => none
  else d.playingParent

/-- `async_media_play`: a no-op unless the device is available and its
state is PLAYING or PAUSED; then the command is forwarded to the playing
parent's dispatcher when `_playing_parent` is set and to this device's
own remote session otherwise, followed by a full refresh when the
account websocket is down. -/
def async_media_play (d : AlexaClientState) (websocket : Bool) : List Effect :=
  if (d.state = HAState.playing ∨ d.state = HAState.paused)
      ∧ truthyB d.available = true then
    (match d.playingParent with
     | some p => [Effect.parentPlay p]
     | none => [Effect.apiPlay])
      ++ (if websocket then [] else [Effect.refresh])
  else []

/-- `async_mute_volume`: a no-op when unavailable; otherwise record the
muted flag, and on mute cache the current volume level and send volume
0, while on unmute send the cached previous volume when one exists and
the literal `50` otherwise; a full refresh follows when the account
websocket is down. -/
def async_mute_volume (d : AlexaClientState) (mute : Bool) (websocket : Bool) :
    AlexaClientState × List Effect :=
  if !truthyB d.available then (d, [])
  else
    let d1 := { d with mediaIsMuted := some mute }
    let tail := if websocket then [] else [Effect.refresh]
    if mute then
      ({ d1 with previousVolume := d1.mediaVolLevel },
        Effect.setVolume 0 :: tail)
    else
      match d1.previousVolume with
      | some v => (d1, Effect.setVolume v :: tail)
      | none => (d1, Effect.setVolume 50 :: tail)

/-- Polling state carried across `async_update` calls: the
`_should_poll` flag and the `_last_update` timestamp. -/
structure PollState where
  shouldPoll : Bool
  lastUpdate : Nat
  deriving Repr, DecidableEq

/-- The polling-enablement condition of `async_update`: the websocket is
down, or the account has no truthy `websocket_commands` record, or none
of the three push-audio kinds has ever been observed. -/
def pushChannelUnproven (websocketEnabled : Bool)
    (seen : Option (List String)) : Bool :=
  !websocketEnabled ||
    (match seen with
     | none => true
     | some l => l.isEmpty || !audioPushSeen l)

/-- Whether the account has never observed any of the three push-audio
command kinds. -/
def noAudioPushEver (seen : Option (List String)) : Bool :=
  match seen with
  | none => true
  | some l => !audioPushSeen l

/-- The scheduling tail of `async_update` (after the refresh): when the
device is PLAYING and the push channel is unproven, `_should_poll` is
cleared and — when `_last_update` is zero or more than `playScanInterval`
old — one forced-refresh timer is registered at `playScanInterval`;
otherwise, when `_should_poll` was still set, it is cleared and one last
forced refresh is registered after 300 seconds when the websocket is
down.  `_last_update` is then set to the current time and a state update
is scheduled. -/
def async_update_scheduler (playScanInterval : Nat) (now : Nat) (st : HAState)
    (websocketEnabled : Bool) (seen : Option (List String)) (s : PollState) :
    PollState × List Effect :=
  if st = HAState.playing ∧ pushChannelUnproven websocketEnabled seen = true then
    (⟨false, now⟩,
      (if s.lastUpdate = 0 ∨ playScanInterval < now - s.lastUpdate then
        [Effect.callLater playScanInterval]
      else []) ++ [Effect.scheduleHaState false])
  else if s.shouldPoll then
    (⟨false, now⟩,
      (if !websocketEnabled then [Effect.callLater 300] else [])
        ++ [Effect.scheduleHaState false])
  else (⟨s.shouldPoll, now⟩, [Effect.scheduleHaState false])

/-- The timers registered in an effect trace. -/
def timersOf (l : List Effect) : List Effect :=
  l.filter (fun e =>
    match e with
    | Effect.callLater _ => true
    | _ => false)

/-- A trace is refresh-debounced when every full refresh in it is
preceded by a 2-second sleep. -/
def refreshDebounced (l : List Effect) : Prop :=
  ∀ i, l.get? i = some Effect.refresh →
    ∃ j, j < i ∧ l.get? j = some (Effect.sleep 2)

/-- A concrete device snapshot used to instantiate the theorems. -/
def exampleClient : AlexaClientState :=
  { deviceSerialNumber := "ECHO1"
    deviceName := "Kitchen Echo"
    appDeviceList := ["APP1"]
    available := some true
    capabilities := ["MUSIC_SKILL", "PAIR_BT_SOURCE"]
    parentClusters := []
    clusterMembers := []
    mediaPlayerState := some "PLAYING"
    mediaVolLevel := some (3 / 10)
    previousVolume := none
    mediaIsMuted := some false
    shuffle := none
    repeatState := none
    source := some "Local Speaker"
    sourceList := ["Local Speaker"]
    bluetoothState := none
    lastCalled := some false
    lastCalledTimestamp := none
    playingParent := none
    shouldPoll := true
    lastUpdate := 0 }

/-- A concrete account registry holding two parent clusters: "P1" is
PLAYING with a truthy session, "P2" is on standby. -/
def exampleRegistry : String → Option EntityView :=
  fun x =>
    if x == "P1" then some ⟨HAState.playing, true⟩
    else if x == "P2" then some ⟨HAState.standby, true⟩
    else none

/-- A concrete cluster-member snapshot with the two parent clusters of
`exampleRegistry`. -/
def exampleMember : AlexaClientState :=
  { exampleClient with parentClusters := ["P1", "P2"] }

/-- C7: for every snapshot, if the availability flag is false then the
externally visible state is exactly "unavailable", regardless of the
value of any other field (including the media-player-state field). -/
theorem C7_unavailable_forces_state (d : AlexaClientState)
    (h : d.available = some false) : d.state = HAState.unavailable := by
  simp [AlexaClientState.state, truthyB, h]

/-- C7 witness: a concrete snapshot whose availability flag is false but
whose media-player-state field says PLAYING is still reported as
unavailable. -/
theorem C7_witness :
    ({ exampleClient with available := some false } : AlexaClientState).available
        = some false ∧
    ({ exampleClient with available := some false } : AlexaClientState).state
        = HAState.unavailable :=
  ⟨rfl, C7_unavailable_forces_state { exampleClient with available := some false } rfl⟩

/-- C2 counterexample: reconciling a transport whose shuffle and repeat
values are "HIDDEN" (neither "SELECTED" nor "DISABLED") yields the
tri-state false, not unknown, refuting the claim that every other value
maps to unknown and never false. -/
theorem C2_counterexample :
    (reconcile_transport exampleClient
        (some ⟨some "HIDDEN", some "HIDDEN"⟩)).shuffle = some false ∧
    (reconcile_transport exampleClient
        (some ⟨some "HIDDEN", some "HIDDEN"⟩)).repeatState = some false ∧
    some false ≠ (none : Option Bool) := by
  refine ⟨by decide, by decide, by decide⟩

/-- C2 amended: during reconciliation of a session payload the transport
value "DISABLED" (or a missing key) maps to unknown (None); any other
present value maps to whether it equals "SELECTED" — so "SELECTED"
yields true and every other value yields false. -/
theorem C2_amended_tristate (d : AlexaClientState) (v : String)
    (hsel : v ≠ "SELECTED") (hdis : v ≠ "DISABLED") :
    (reconcile_transport d (some ⟨some v, some v⟩)).shuffle = some false ∧
    (reconcile_transport d (some ⟨some v, some v⟩)).repeatState = some false ∧
    (reconcile_transport d
        (some ⟨some "DISABLED", some "DISABLED"⟩)).shuffle = none ∧
    (reconcile_transport d
        (some ⟨some "DISABLED", some "DISABLED"⟩)).repeatState = none ∧
    (reconcile_transport d
        (some ⟨some "SELECTED", some "SELECTED"⟩)).shuffle = some true ∧
    (reconcile_transport d (some ⟨none, none⟩)).shuffle = none := by
  simp [reconcile_transport, transport_tristate, hdis, beq_iff_eq, hsel]

/-- C2 amended witness: the amended tri-state mapping evaluated at the
concrete value "HIDDEN". -/
theorem C2_amended_witness :
    (reconcile_transport exampleClient
        (some ⟨some "HIDDEN", some "HIDDEN"⟩)).shuffle = some false ∧
    (reconcile_transport exampleClient
        (some ⟨some "HIDDEN", some "HIDDEN"⟩)).repeatState = some false ∧
    (reconcile_transport exampleClient
        (some ⟨some "DISABLED", some "DISABLED"⟩)).shuffle = none ∧
    (reconcile_transport exampleClient
        (some ⟨some "DISABLED", some "DISABLED"⟩)).repeatState = none ∧
    (reconcile_transport exampleClient
        (some ⟨some "SELECTED", some "SELECTED"⟩)).shuffle = some true ∧
    (reconcile_transport exampleClient (some ⟨none, none⟩)).shuffle = none :=
  C2_amended_tristate exampleClient "HIDDEN" (by decide) (by decide)

/-- C9: evaluation of `async_mute_volume` at the failing input — an
available device with no cached previous volume — shows that unmute
sends the literal `50` to the remote session, not the `0.5` that the
[0,1] volume scale used by every other `set_volume` call in the same
method would require. -/
theorem C9_unmute_default_sends_50 :
    (async_mute_volume exampleClient false true).2.head?
        = some (Effect.setVolume 50) ∧
    exampleClient.previousVolume = none ∧
    (50 : ℚ) ≠ 1 / 2 := by
  refine ⟨rfl, rfl, by norm_num⟩

/-- C8: for every volume v in [0,1], on an available device whose volume
level is v, mute(true) followed by mute(false) sends volume 0 then
exactly v back to the remote session, and the cached previous volume
after the round trip equals v. -/
theorem C8_mute_roundtrip (d : AlexaClientState) (v : ℚ) (ws : Bool)
    (h0 : 0 ≤ v) (h1 : v ≤ 1)
    (havail : d.available = some true) (hvol : d.mediaVolLevel = some v) :
    (async_mute_volume d true ws).2.head? = some (Effect.setVolume 0) ∧
    (async_mute_volume (async_mute_volume d true ws).1 false ws).2.head?
        = some (Effect.setVolume v) ∧
    (async_mute_volume (async_mute_volume d true ws).1 false ws).1.previousVolume
        = some v := by
  simp [async_mute_volume, truthyB, havail, hvol]

/-- C8 witness: the mute round trip evaluated at the concrete volume
3/10 on a concrete available device. -/
theorem C8_witness :
    (async_mute_volume exampleClient true true).2.head?
        = some (Effect.setVolume 0) ∧
    (async_mute_volume (async_mute_volume exampleClient true true).1
        false true).2.head? = some (Effect.setVolume (3 / 10)) ∧
    (async_mute_volume (async_mute_volume exampleClient true true).1
        false true).1.previousVolume = some (3 / 10) :=
  C8_mute_roundtrip exampleClient (3 / 10) true (by norm_num) (by norm_num) rfl rfl

/-- C10: for every inbound event of one of the five recognized shapes
from which a non-empty target serial is extracted, `_handle_event` sets
this device's availability flag to true before any serial-match check:
the handler factors through `event_availability_update`, which
unconditionally sets `available` to true, and only then runs the
serial-matching dispatch. -/
theorem C10_availability_before_match (d : AlexaClientState) (ev : EventData)
    (acct : AccountData) (s : String)
    (hs : extract_serial ev = some s) (hne : s ≠ "") :
    (event_availability_update d).available = some true ∧
    handle_event d ev acct =
      ((handle_event_dispatch (event_availability_update d) ev acct s).1,
        Effect.scheduleHaState false ::
          (handle_event_dispatch (event_availability_update d) ev acct s).2) := by
  refine ⟨rfl, ?_⟩
  unfold handle_event
  rw [hs]
  simp [beq_iff_eq, hne]

/-- C10 witness: a last-called event whose serial "OTHER" belongs to a
different device than the concrete snapshot (serial "ECHO1") still
routes through the unconditional availability update. -/
theorem C10_witness :
    extract_serial (EventData.lastCalledChange (some ⟨"OTHER", 7⟩))
        = some "OTHER" ∧
    "OTHER" ≠ exampleClient.deviceSerialNumber ∧
    (event_availability_update exampleClient).available = some true ∧
    handle_event exampleClient (EventData.lastCalledChange (some ⟨"OTHER", 7⟩))
        ⟨true, none⟩ =
      ((handle_event_dispatch (event_availability_update exampleClient)
          (EventData.lastCalledChange (some ⟨"OTHER", 7⟩)) ⟨true, none⟩
          "OTHER").1,
        Effect.scheduleHaState false ::
          (handle_event_dispatch (event_availability_update exampleClient)
            (EventData.lastCalledChange (some ⟨"OTHER", 7⟩)) ⟨true, none⟩
            "OTHER").2) :=
  ⟨rfl, by decide,
    (C10_availability_before_match exampleClient
      (EventData.lastCalledChange (some ⟨"OTHER", 7⟩)) ⟨true, none⟩ "OTHER"
      rfl (by decide)).1,
    (C10_availability_before_match exampleClient
      (EventData.lastCalledChange (some ⟨"OTHER", 7⟩)) ⟨true, none⟩ "OTHER"
      rfl (by decide)).2⟩

/-- C6 counterexample: a device currently marked as last called receives
a last-called event for an unrelated serial; the handler mutates the
last-called flag from true to false, refuting the claim that the
last-called fields are left unchanged. -/
theorem C6_counterexample :
    ({ exampleClient with lastCalled := some true } : AlexaClientState).lastCalled
        = some true ∧
    (handle_event { exampleClient with lastCalled := some true }
        (EventData.lastCalledChange (some ⟨"OTHER", 99⟩))
        ⟨true, none⟩).1.lastCalled = some false := by
  refine ⟨rfl, by decide⟩

/-- C6 amended: a last-called event whose serial matches neither this
device's serial number nor any affiliated app-device id sets the
last-called flag to false and leaves the last-called timestamp
unchanged. -/
theorem C6_amended (d : AlexaClientState) (acct : AccountData)
    (p : LastCalledPayload)
    (hne : p.serialNumber ≠ "")
    (hnd : p.serialNumber ≠ d.deviceSerialNumber)
    (hna : p.serialNumber ∉ d.appDeviceList) :
    (handle_event d (EventData.lastCalledChange (some p)) acct).1.lastCalled
        = some false ∧
    (handle_event d (EventData.lastCalledChange (some p)) acct).1.lastCalledTimestamp
        = d.lastCalledTimestamp := by
  unfold handle_event extract_serial
  simp [beq_iff_eq, hne, handle_event_dispatch, handle_last_called,
    event_availability_update, hnd, hna]


/-- C6 amended witness: the amended statement evaluated on a concrete
device (serial "ECHO1", app device "APP1") and the unrelated serial
"OTHER". -/
theorem C6_witness :
    (handle_event { exampleClient with lastCalledTimestamp := some 5 }
        (EventData.lastCalledChange (some ⟨"OTHER", 99⟩))
        ⟨true, none⟩).1.lastCalled = some false ∧
    (handle_event { exampleClient with lastCalledTimestamp := some 5 }
        (EventData.lastCalledChange (some ⟨"OTHER", 99⟩))
        ⟨true, none⟩).1.lastCalledTimestamp
      = ({ exampleClient with lastCalledTimestamp := some 5 }
          : AlexaClientState).lastCalledTimestamp :=
  C6_amended { exampleClient with lastCalledTimestamp := some 5 } ⟨true, none⟩
    ⟨"OTHER", 99⟩ (by decide) (by decide) (by decide)

/-- C3 counterexample: a volume-setting-only player-state event for this
device does trigger a full refresh when the account has a non-empty
websocket-command record containing none of the three push-audio kinds —
the no-audiopush fallback fires, refuting the claim that no refresh is
ever triggered. -/
theorem C3_counterexample :
    (handle_event exampleClient
        (EventData.playerState (some ⟨"ECHO1", none, none, some 30, none⟩))
        ⟨true, some ["PUSH_VOLUME_CHANGE"]⟩).2
      = [Effect.scheduleHaState false, Effect.scheduleHaState false,
          Effect.refresh] ∧
    Effect.refresh ∈
      [Effect.scheduleHaState false, Effect.scheduleHaState false,
        Effect.refresh] := by
  refine ⟨by decide, by simp⟩

/-- C3 amended: a volume-setting-only player-state event for this device
updates the volume field to value/100 in place; provided the
no-audiopush fallback does not fire (the websocket-command record is
absent, empty, or has delivered one of the three push-audio kinds), the
handler makes no network call and triggers no refresh: the only effects
are scheduled state updates. -/
theorem C3_amended (d : AlexaClientState) (acct : AccountData) (v : Int)
    (hne : d.deviceSerialNumber ≠ "")
    (hfb : refresh_if_no_audiopush false acct = []) :
    handle_event d
        (EventData.playerState
          (some ⟨d.deviceSerialNumber, none, none, some v, none⟩)) acct =
      ({ d with available := some true, mediaVolLevel := some ((v : ℚ) / 100) },
        [Effect.scheduleHaState false, Effect.scheduleHaState false]) := by
  unfold handle_event extract_serial
  simp [beq_iff_eq, hne, handle_event_dispatch, handle_player_state,
    event_availability_update, hfb]

/-- C3 amended witness: a concrete volume-setting event (value 30) on an
account whose websocket-command record has seen a push-audio kind
updates the volume to 3/10 with no refresh and no network call. -/
theorem C3_witness :
    handle_event exampleClient
        (EventData.playerState (some ⟨"ECHO1", none, none, some 30, none⟩))
        ⟨true, some ["PUSH_MEDIA_CHANGE"]⟩ =
      ({ exampleClient with
          available := some true
          mediaVolLevel := some ((30 : ℚ) / 100) },
        [Effect.scheduleHaState false, Effect.scheduleHaState false]) :=
  C3_amended exampleClient ⟨true, some ["PUSH_MEDIA_CHANGE"]⟩ 30
    (by decide) (by decide)

/-- C4 counterexample: a player-state event for this device carrying a
media-reference-id (and no audio-player-state) performs the full refresh
immediately — the effect trace contains a refresh with no preceding
2-second sleep — refuting the claim that every such event waits the
2-time-unit debounce before refreshing. -/
theorem C4_counterexample :
    (handle_event exampleClient
        (EventData.playerState (some ⟨"ECHO1", none, some "MREF", none, none⟩))
        ⟨true, none⟩).2
      = [Effect.scheduleHaState false, Effect.refresh] ∧
    ¬ refreshDebounced [Effect.scheduleHaState false, Effect.refresh] := by
  refine ⟨by decide, ?_⟩
  intro h
  obtain ⟨j, hj, hget⟩ := h 1 rfl
  have hj0 : j = 0 := by omega
  subst hj0
  exact absurd hget (by decide)

/-- The no-audiopush fallback never fires when a full refresh has
already happened during the event. -/
theorem refresh_if_no_audiopush_already (acct : AccountData) :
    refresh_if_no_audiopush true acct = [] := by
  unfold refresh_if_no_audiopush
  cases acct.websocketCommands <;> simp

/-- C4 amended: a player-state event for this device carrying an
audio-player-state waits the fixed 2-second debounce before the full
refresh (every refresh in its trace is preceded by a 2-second sleep),
while an event carrying a media-reference-id and no audio-player-state
refreshes immediately with no debounce. -/
theorem C4_amended (d : AlexaClientState) (p : PlayerStatePayload)
    (acct : AccountData)
    (hser : p.deviceSerialNumber = d.deviceSerialNumber)
    (hne : d.deviceSerialNumber ≠ "") :
    (p.audioPlayerState.isSome = true →
      (handle_event d (EventData.playerState (some p)) acct).2
          = [Effect.scheduleHaState false, Effect.sleep 2, Effect.refresh] ∧
      refreshDebounced
        (handle_event d (EventData.playerState (some p)) acct).2) ∧
    (p.audioPlayerState = none → p.mediaReferenceId.isSome = true →
      (handle_event d (EventData.playerState (some p)) acct).2
          = [Effect.scheduleHaState false, Effect.refresh]) := by
  constructor
  · intro haudio
    have htrace :
        (handle_event d (EventData.playerState (some p)) acct).2
          = [Effect.scheduleHaState false, Effect.sleep 2, Effect.refresh] := by
      unfold handle_event extract_serial
      simp [hser, beq_iff_eq, hne, handle_event_dispatch, handle_player_state,
        event_availability_update, haudio, refresh_if_no_audiopush_already]
    refine ⟨htrace, ?_⟩
    rw [htrace]
    intro i hi
    match i with
    | 0 => exact absurd hi (by decide)
    | 1 => exact absurd hi (by decide)
    | 2 => exact ⟨1, by omega, rfl⟩
    | n + 3 => exact absurd hi (by simp)
  · intro haudio hmedia
    unfold handle_event extract_serial
    simp [hser, beq_iff_eq, hne, handle_event_dispatch, handle_player_state,
      event_availability_update, haudio, hmedia, refresh_if_no_audiopush_already]

/-- C4 amended witness: the amended statement evaluated on a concrete
audio-player-state event for the concrete device. -/
theorem C4_witness :
    (handle_event exampleClient
        (EventData.playerState
          (some ⟨"ECHO1", some "PLAYING", none, none, none⟩)) ⟨true, none⟩).2
      = [Effect.scheduleHaState false, Effect.sleep 2, Effect.refresh] ∧
    refreshDebounced
      (handle_event exampleClient
        (EventData.playerState
          (some ⟨"ECHO1", some "PLAYING", none, none, none⟩)) ⟨true, none⟩).2 :=
  (C4_amended exampleClient ⟨"ECHO1", some "PLAYING", none, none, none⟩
    ⟨true, none⟩ rfl (by decide)).1 rfl

/-- C1: for a cluster member with two parent clusters of which exactly
one is PLAYING (per the shared registry), `refresh` resolves
`_playing_parent` to that playing parent (whose session, being the
playing one, is truthy), and a play command issued on the member — which
is available and in a PLAYING or PAUSED state — is forwarded to that
parent's dispatcher and never calls the member's own remote session play
operation. -/
theorem C1_cluster_delegation (reg : String → Option EntityView)
    (d : AlexaClientState) (p1 p2 : String) (ws : Bool)
    (hpar : d.parentClusters = [p1, p2])
    (hmusic : "MUSIC_SKILL" ∈ d.capabilities)
    (havail : d.available = some true)
    (hstate : d.mediaPlayerState = some "PLAYING" ∨
      d.mediaPlayerState = some "PAUSED")
    (hone : isPlayingEntity reg p1 ≠ isPlayingEntity reg p2)
    (hs1 : isPlayingEntity reg p1 = true → sessionTruthyOf reg p1 = true)
    (hs2 : isPlayingEntity reg p2 = true → sessionTruthyOf reg p2 = true) :
    refresh_playing_parent reg d
        = some (if isPlayingEntity reg p1 then p1 else p2) ∧
    async_media_play { d with playingParent := refresh_playing_parent reg d } ws
        = Effect.parentPlay (if isPlayingEntity reg p1 then p1 else p2)
            :: (if ws then [] else [Effect.refresh]) ∧
    Effect.apiPlay ∉
      async_media_play { d with playingParent := refresh_playing_parent reg d }
        ws := by
  have hfirst : refresh_playing_parent reg d
      = some (if isPlayingEntity reg p1 then p1 else p2) := by
    unfold refresh_playing_parent playing_parents
    rw [hpar]
    cases hb1 : isPlayingEntity reg p1 with
    | true => simp [truthyB, havail, hmusic, hb1, hs1 hb1]
    | false =>
        have hb2 : isPlayingEntity reg p2 = true := by
          cases hb2 : isPlayingEntity reg p2
          · exact absurd (hb1.trans hb2.symm) hone
          · rfl
        simp [truthyB, havail, hmusic, hb1, hb2, hs2 hb2]
  have hst :
      ({ d with playingParent := refresh_playing_parent reg d }
          : AlexaClientState).state = HAState.playing ∨
      ({ d with playingParent := refresh_playing_parent reg d }
          : AlexaClientState).state = HAState.paused := by
    unfold AlexaClientState.state
    rcases hstate with h | h
    · left; simp [truthyB, havail, h]
    · right; simp [truthyB, havail, h]
  have hplay :
      async_media_play { d with playingParent := refresh_playing_parent reg d }
          ws
        = Effect.parentPlay (if isPlayingEntity reg p1 then p1 else p2)
            :: (if ws then [] else [Effect.refresh]) := by
    unfold async_media_play
    rw [if_pos ⟨hst, by simp [truthyB, havail]⟩]
    simp [hfirst]
  refine ⟨hfirst, hplay, ?_⟩
  rw [hplay]
  cases ws <;> simp

/-- C1 witness: the delegation evaluated on the concrete member of
`exampleRegistry`, where "P1" is the unique playing parent: the play
command forwards to "P1" and the member's own remote play is absent from
the trace. -/
theorem C1_witness :
    refresh_playing_parent exampleRegistry exampleMember = some "P1" ∧
    async_media_play
        { exampleMember with
          playingParent := refresh_playing_parent exampleRegistry exampleMember }
        true
      = [Effect.parentPlay "P1"] ∧
    Effect.apiPlay ∉
      async_media_play
        { exampleMember with
          playingParent := refresh_playing_parent exampleRegistry exampleMember }
        true := by
  exact C1_cluster_delegation exampleRegistry exampleMember "P1" "P2" true
    rfl (by decide) rfl (Or.inl rfl) (by decide) (by decide) (by decide)

/-- C5 counterexample: with a PLAYING device, an unproven push channel
and an elapsed throttle, the scheduler step turns the poll-enabled flag
off (the code comment reads "disable polling since manual update"),
refuting the claim that the scheduler keeps polling. -/
theorem C5_counterexample :
    (⟨true, 0⟩ : PollState).shouldPoll = true ∧
    (async_update_scheduler 60 100 HAState.playing false none
        ⟨true, 0⟩).1.shouldPoll = false := by
  refine ⟨rfl, by decide⟩

/-- C5 amended: after a refresh with the device PLAYING and a push
channel that has never delivered any of the three audio event kinds, the
scheduler disables regular polling and — the throttle having elapsed —
registers exactly one forced-refresh timer at the fixed play-scan
interval; a second scheduler pass within the pending window of that
timer registers no further timer. -/
theorem C5_amended (I t0 t1 : Nat) (ws : Bool) (seen : Option (List String))
    (s0 : PollState)
    (hnoaudio : noAudioPushEver seen = true)
    (ht0 : 0 < t0)
    (hthrottle : s0.lastUpdate = 0 ∨ (s0.lastUpdate ≤ t0 ∧ I < t0 - s0.lastUpdate))
    (ht1a : t0 < t1) (ht1b : t1 ≤ t0 + I) :
    timersOf (async_update_scheduler I t0 HAState.playing ws seen s0).2
        = [Effect.callLater I] ∧
    (async_update_scheduler I t0 HAState.playing ws seen s0).1
        = ⟨false, t0⟩ ∧
    timersOf
        (async_update_scheduler I t1 HAState.playing ws seen ⟨false, t0⟩).2
        = [] := by
  have hup : pushChannelUnproven ws seen = true := by
    cases seen with
    | none => simp [pushChannelUnproven]
    | some l =>
        have hl : audioPushSeen l = false := by
          simpa [noAudioPushEver] using hnoaudio
        simp [pushChannelUnproven, hl]
  have hcond : s0.lastUpdate = 0 ∨ I < t0 - s0.lastUpdate := by
    rcases hthrottle with h | ⟨h1, h2⟩
    · exact Or.inl h
    · exact Or.inr h2
  have hcond2 : ¬ (t0 = 0 ∨ I < t1 - t0) := by
    push_neg
    exact ⟨by omega, by omega⟩
  refine ⟨?_, ?_, ?_⟩
  · unfold async_update_scheduler
    rw [if_pos ⟨rfl, hup⟩, if_pos hcond]
    simp [timersOf]
  · unfold async_update_scheduler
    rw [if_pos ⟨rfl, hup⟩]
  · unfold async_update_scheduler
    rw [if_pos ⟨rfl, hup⟩, if_neg hcond2]
    simp [timersOf]

/-- C5 amended witness: the scheduler evaluated at concrete times 100
and 130 with interval 60 on an account whose command record has no
audio kinds: one timer at the interval on the first pass, none on the
second. -/
theorem C5_witness :
    timersOf (async_update_scheduler 60 100 HAState.playing true
        (some ["PUSH_ACTIVITY"]) ⟨true, 0⟩).2 = [Effect.callLater 60] ∧
    (async_update_scheduler 60 100 HAState.playing true
        (some ["PUSH_ACTIVITY"]) ⟨true, 0⟩).1 = ⟨false, 100⟩ ∧
    timersOf (async_update_scheduler 60 130 HAState.playing true
        (some ["PUSH_ACTIVITY"]) ⟨false, 100⟩).2 = [] :=
  C5_amended 60 100 130 true (some ["PUSH_ACTIVITY"]) ⟨true, 0⟩
    (by decide) (by decide) (Or.inl rfl) (by decide) (by decide)
